import Mathlib

set_option maxRecDepth 100000

/-!
Verification development for the Confluence GenAI agent repository
(`src/confluence_connector.py`, `src/genai_agent.py`).

Modelling conventions:
* Python strings are Lean `String`s (a wrapper around `List Char`); Python
  slicing `s[:n]` slices by code points and is modelled by `pyTake`.
* Python dictionaries returned by the remote Confluence client are modelled
  as structures of `Option`-valued raw fields (`none` = JSON null); the
  connector's `.get(k, d)` reads become `Option.getD`.
* Python exceptions are modelled with `Except String` carrying `str(e)`;
  remote calls are oracle functions supplied as an explicit `Remote`
  argument, so a theorem can quantify over every remote behaviour.
* The JSON object produced by the intent-classification LLM call is
  modelled by `IntentAnalysis`.  For `space_key`, where the distinction
  matters to a claim, the field is `Option (Option String)`: the outer
  `Option` is key presence (`dict.get` falls back only when the key is
  absent), the inner one is the JSON-null/string distinction.  For
  `action`, `search_query` and `max_results` a JSON null is collapsed into
  key absence because no observable behaviour distinguishing them is
  claimed.
* `logging` calls are pure observational no-ops and are not modelled.
* Each connector operation begins with `if not self.confluence:
  self.connect()`; the agent constructor connects before any query, so the
  operations are modelled in the connected state (the lazy-connect branch
  is unreachable in the orchestrated flow).
-/

/-! ### Generic string helpers (Python `in`, `.lower()`, slicing) -/

/-- `startsWithList n h` decides whether `n` is an initial segment of `h`. -/
def startsWithList : List Char → List Char → Bool
  | [], _ => true
  | _ :: _, [] => false
  | a :: t1, b :: t2 => a = b && startsWithList t1 t2

/-- Occurrence of `needle` as a contiguous segment of the haystack:
Python's `needle in haystack` for strings. -/
def containsList (needle : List Char) : List Char → Bool
  | [] => needle.isEmpty
  | c :: rest => startsWithList needle (c :: rest) || containsList needle rest

/-- Python `needle in haystack` on strings. -/
def containsStr (needle haystack : String) : Bool :=
  containsList needle.data haystack.data

/-- Python `str.lower()` (ASCII, which covers every pattern the code
matches on). -/
def lowerStr (s : String) : String :=
  ⟨s.data.map Char.toLower⟩

/-- Python slicing `s[:n]` (by code points). -/
def pyTake (s : String) (n : Nat) : String :=
  ⟨s.data.take n⟩

/-- Rendering of a possibly-null string in a Python f-string:
`f"{None}"` prints `None`. -/
def pyOpt : Option String → String
  | some s => s
  | none => "None"

/-- `strIn needle haystack`: `needle` occurs contiguously in `haystack`. -/
def strIn (needle haystack : String) : Prop :=
  ∃ s t, haystack.data = s ++ needle.data ++ t

theorem strData_append (a b : String) : (a ++ b).data = a.data ++ b.data := rfl

theorem strExt {a b : String} (h : a.data = b.data) : a = b := by
  cases a; cases b; simp only at h; rw [h]

theorem strAppend_assoc (a b c : String) : a ++ b ++ c = a ++ (b ++ c) :=
  strExt (by simp [strData_append, List.append_assoc])

theorem strAppend_empty (a : String) : a ++ "" = a :=
  strExt (by simp [strData_append])

theorem strIn_self (n : String) : strIn n n :=
  ⟨[], [], by simp⟩

theorem strIn_append_left {n h : String} (p : String) (hn : strIn n h) :
    strIn n (p ++ h) := by
  obtain ⟨s, t, hd⟩ := hn
  exact ⟨p.data ++ s, t, by simp [strData_append, hd]⟩

theorem strIn_append_right {n h : String} (q : String) (hn : strIn n h) :
    strIn n (h ++ q) := by
  obtain ⟨s, t, hd⟩ := hn
  exact ⟨s, t ++ q.data, by simp [strData_append, hd]⟩

/-! ### The tag-stripping regular expression

`search_content` and `get_page_content` run
`re.sub('<[^<]+?>', '', content)`.  A match of the lazy pattern starting at
a `<` is: one or more characters none of which is `<`, up to the *first*
subsequent `>` (the lazy `+?` stops at the first closing candidate, and a
`<` aborts the attempt).  `re.sub` scans left to right, removing
non-overlapping matches; on a failed attempt it moves one character
forward. -/

/-- After at least one character following the `<` has been consumed:
consume until the first `>` (success, returning the rest), failing on `<`
or end of input. -/
def matchTagAux : List Char → Option (List Char)
  | [] => none
  | c :: rest =>
    if c = '>' then some rest
    else if c = '<' then none
    else matchTagAux rest

/-- Try to match `[^<]+?>` against the characters following a `<`:
the first character may be anything but `<` (even `>`), then
`matchTagAux` looks for the closing `>`. -/
def matchTag : List Char → Option (List Char)
  | [] => none
  | c :: rest => if c = '<' then none else matchTagAux rest

theorem matchTagAux_length :
    ∀ {l l' : List Char}, matchTagAux l = some l' → l'.length < l.length := by
  intro l
  induction l with
  | nil => intro l' h; simp [matchTagAux] at h
  | cons c rest ih =>
    intro l' h
    by_cases hgt : c = '>'
    · simp [matchTagAux, hgt] at h
      subst h; simp
    · by_cases hlt : c = '<'
      · simp [matchTagAux, hgt, hlt] at h
      · simp [matchTagAux, hgt, hlt] at h
        exact Nat.lt_succ_of_lt (ih h)

theorem matchTag_length {l l' : List Char} (h : matchTag l = some l') :
    l'.length < l.length := by
  cases l with
  | nil => simp [matchTag] at h
  | cons c rest =>
    by_cases hlt : c = '<'
    · simp [matchTag, hlt] at h
    · simp [matchTag, hlt] at h
      exact Nat.lt_succ_of_lt (matchTagAux_length h)

/-- One left-to-right pass of `re.sub('<[^<]+?>', '', ·)`, with structural
fuel (any fuel above the input length computes the pass). -/
def stripTagsFuel : Nat → List Char → List Char
  | 0, _ => []
  | _ + 1, [] => []
  | fuel + 1, c :: rest =>
    if c = '<' then
      match matchTag rest with
      | some rest2 => stripTagsFuel fuel rest2
      | none => c :: stripTagsFuel fuel rest
    else c :: stripTagsFuel fuel rest

/-- `re.sub('<[^<]+?>', '', content)` on character lists. -/
def stripTags (l : List Char) : List Char :=
  stripTagsFuel (l.length + 1) l

/-- Scanner for the spec's "`<...>` tag sequence": some `<` is followed by
a later `>` with neither `<` nor `>` strictly in between. -/
def hasTagAux : List Char → Bool → Bool
  | [], _ => false
  | c :: rest, opened =>
    if c = '<' then hasTagAux rest true
    else if c = '>' then (if opened then true else hasTagAux rest false)
    else hasTagAux rest opened

/-- A string contains a `<...>` tag sequence. -/
def hasTagB (s : String) : Bool :=
  hasTagAux s.data false

/-- Well-formed markup: every `<` opens a tag `<c₁…cₖ>` with `k ≥ 1` and
no `<`/`>` among the `cᵢ`.  State 0 = outside a tag, 1 = just after a `<`,
2 = inside a tag with at least one content character seen. -/
def wfAux : List Char → Nat → Bool
  | [], st => st == 0
  | c :: rest, st =>
    if st == 0 then (if c = '<' then wfAux rest 1 else wfAux rest 0)
    else if st == 1 then
      (if c = '<' || c = '>' then false else wfAux rest 2)
    else
      (if c = '>' then wfAux rest 0
       else if c = '<' then false else wfAux rest 2)

/-- Every `<` of the body opens a well-formed tag. -/
def wfMarkup (s : String) : Bool :=
  wfAux s.data 0

/-! ### `src/confluence_connector.py` -/

/-- Connector configuration (environment-sourced in `__init__`). -/
structure ConnConfig where
  url : String
  default_space : Option String
  deriving DecidableEq

/-- A space object as returned by `confluence.get_all_spaces`:
`key`/`name`/`type` via `.get`, the plain description value via the nested
`.get` chain, and the `_links.webui` value. -/
structure RawSpace where
  key : Option String
  name : Option String
  type : Option String
  descriptionPlainValue : Option String
  webui : Option String
  deriving DecidableEq

/-- A page object as returned by `get_all_pages_from_space` /
`get_page_by_id` / `get_page_by_title`. -/
structure RawPage where
  id : Option String
  title : Option String
  versionNumber : Option Nat
  bodyStorageValue : Option String
  webui : Option String
  deriving DecidableEq

/-- A result object of a `cql` search. -/
structure RawSearchItem where
  id : Option String
  title : Option String
  contentType : Option String
  spaceKey : Option String
  spaceName : Option String
  bodyStorageValue : Option String
  webui : Option String
  versionNumber : Option Nat
  deriving DecidableEq

/-- The remote Confluence endpoint reached through the `atlassian`
client: each call either raises (`error` = `str(e)`) or returns parsed
JSON.  `get_page_by_id`/`get_page_by_title` may also return a falsy value
(`ok none`) for a missing page. -/
structure Remote where
  get_all_spaces : Nat → Except String (List RawSpace)
  get_all_pages_from_space : String → Nat → Except String (List RawPage)
  cql : String → Nat → Except String (List RawSearchItem)
  get_page_by_id : String → Except String (Option RawPage)
  get_page_by_title : String → String → Except String (Option RawPage)

/-- Normalized space record built by `get_spaces`. -/
structure SpaceRec where
  key : Option String
  name : Option String
  type : Option String
  description : String
  page_count : String
  deriving DecidableEq

/-- Normalized page record built by `get_pages_from_space`. -/
structure PageRec where
  id : Option String
  title : Option String
  space : String
  version : Nat
  content : String
  url : String
  deriving DecidableEq

/-- Normalized search record built by `search_content`. -/
structure SearchRec where
  id : Option String
  title : Option String
  type : String
  space : String
  space_name : String
  content : String
  url : String
  version : Nat
  deriving DecidableEq

/-- Minimal page record built by `get_page_by_title`. -/
structure TitleRec where
  id : Option String
  title : Option String
  space : String
  url : String
  deriving DecidableEq

/-- Python `str.rstrip('/')`: remove every trailing `/`. -/
def rstrip_slash (s : String) : String :=
  ⟨(s.data.reverse.dropWhile (fun c => c = '/')).reverse⟩

/-- `self.url.rstrip('/') + webui`: page-URL construction shared by
`get_pages_from_space`, `search_content` and `get_page_by_title`. -/
def buildPageUrl (url webui : String) : String :=
  rstrip_slash url ++ webui

/-- `ConfluenceConnector.get_spaces`: list spaces, reshaping each result
(the `page_count` field is in fact filled with the `webui` link by the
source); a remote failure propagates after being logged. -/
def get_spaces (r : Remote) (limit : Nat) : Except String (List SpaceRec) :=
  match r.get_all_spaces limit with
  | .error e => .error e
  | .ok spaces =>
    .ok (spaces.map fun s =>
      ⟨s.key, s.name, s.type, s.descriptionPlainValue.getD "",
       s.webui.getD ""⟩)

/-- `ConfluenceConnector.get_pages_from_space`: content is the first 500
characters of the stored body; the url is the configured base with
trailing slashes stripped plus the relative web link; a remote failure
propagates after being logged. -/
def get_pages_from_space (cfg : ConnConfig) (r : Remote) (space_key : String)
    (limit : Nat) : Except String (List PageRec) :=
  match r.get_all_pages_from_space space_key limit with
  | .error e => .error e
  | .ok pages =>
    .ok (pages.map fun p =>
      ⟨p.id, p.title, space_key, p.versionNumber.getD 0,
       pyTake (p.bodyStorageValue.getD "") 500,
       buildPageUrl cfg.url (p.webui.getD "")⟩)

/-- The CQL query string built by `search_content`: a text-contains
predicate, conjoined with a space predicate when `space_key` is truthy. -/
def buildCql (query : String) (space_key : Option String) : String :=
  "text ~ \"" ++ query ++ "\"" ++
    (match space_key with
     | some sk => if sk = "" then "" else " AND space = " ++ sk
     | none => "")

/-- The tag-stripped, 300-character-truncated snippet computed by
`search_content`: `re.sub('<[^<]+?>', '', content)[:300]`. -/
def stripSnippet (content : String) : String :=
  pyTake ⟨stripTags content.data⟩ 300

/-- `ConfluenceConnector.search_content`: build the CQL query, run it, and
reshape each item, with the snippet tag-stripped before the 300-character
truncation; a remote failure propagates after being logged. -/
def search_content (cfg : ConnConfig) (r : Remote) (query : String)
    (space_key : Option String) (max_results : Nat) :
    Except String (List SearchRec) :=
  match r.cql (buildCql query space_key) max_results with
  | .error e => .error e
  | .ok items =>
    .ok (items.map fun it =>
      ⟨it.id, it.title, it.contentType.getD "", it.spaceKey.getD "",
       it.spaceName.getD "", stripSnippet (it.bodyStorageValue.getD ""),
       buildPageUrl cfg.url (it.webui.getD ""), it.versionNumber.getD 0⟩)

/-- `ConfluenceConnector.get_page_content`: full tag-stripped text of one
page, `none` both when the page is falsy and when the remote call raises
(the failure is swallowed). -/
def get_page_content (r : Remote) (page_id : String) : Option String :=
  match r.get_page_by_id page_id with
  | .error _ => none
  | .ok none => none
  | .ok (some page) => some ⟨stripTags (page.bodyStorageValue.getD "").data⟩

/-- `ConfluenceConnector.get_page_by_title`: minimal record, `none` both
when the page is falsy and when the remote call raises (the failure is
swallowed). -/
def get_page_by_title (cfg : ConnConfig) (r : Remote) (space_key title : String) :
    Option TitleRec :=
  match r.get_page_by_title space_key title with
  | .error _ => none
  | .ok none => none
  | .ok (some page) =>
    some ⟨page.id, page.title, space_key, buildPageUrl cfg.url (page.webui.getD "")⟩

/-! ### `src/genai_agent.py` — record formatters

Each Python formatter initializes an accumulator string and extends it
once per record with `enumerate(·, 1)`; `fmtLoop` is that loop and
`entriesFrom` its closed form.  The `.get(k, default)` defaults for keys
the connector always populates are unreachable; a JSON-null value prints
as `None` (`pyOpt`). -/

/-- The accumulate-in-a-loop shape shared by the three formatters. -/
def fmtLoop (f : Nat → α → String) : String → Nat → List α → String
  | acc, _, [] => acc
  | acc, i, r :: rest => fmtLoop f (acc ++ f i r) (i + 1) rest

/-- Closed form of `fmtLoop`: the concatenation of the per-record entries
numbered from `i`. -/
def entriesFrom (f : Nat → α → String) : Nat → List α → String
  | _, [] => ""
  | i, r :: rest => f i r ++ entriesFrom f (i + 1) rest

/-- Concatenation of a list of strings. -/
def concatAll : List String → String
  | [] => ""
  | s :: rest => s ++ concatAll rest

/-- The text `_format_search_results` appends for record number `i`. -/
def searchEntry (i : Nat) (r : SearchRec) : String :=
  ("\n" ++ toString i ++ ". Title: " ++ pyOpt r.title ++ "\n"
    ++ "   Space: " ++ r.space_name ++ "\n"
    ++ "   Type: " ++ r.type ++ "\n")
  ++ (if r.content ≠ "" then "   Content: " ++ pyTake r.content 200 ++ "...\n" else "")
  ++ (if r.url ≠ "" then "   URL: " ++ r.url ++ "\n" else "")

/-- `ConfluenceGenAIAgent._format_search_results`. -/
def formatSearchResults (results : List SearchRec) : String :=
  if results.isEmpty then "No results found."
  else fmtLoop searchEntry "Search Results:\n" 1 results

/-- The text `_format_pages` appends for record number `i`. -/
def pageEntry (i : Nat) (p : PageRec) : String :=
  ("\n" ++ toString i ++ ". " ++ pyOpt p.title ++ "\n"
    ++ "   ID: " ++ pyOpt p.id ++ "\n")
  ++ (if p.content ≠ "" then "   Preview: " ++ pyTake p.content 150 ++ "...\n" else "")
  ++ (if p.url ≠ "" then "   URL: " ++ p.url ++ "\n" else "")

/-- `ConfluenceGenAIAgent._format_pages`. -/
def formatPages (pages : List PageRec) (space_key : String) : String :=
  if pages.isEmpty then "No pages found in space: " ++ space_key
  else fmtLoop pageEntry ("Pages from space \x27" ++ space_key ++ "\x27:\n") 1 pages

/-- The text `_format_spaces` appends for record number `i`. -/
def spaceEntry (i : Nat) (s : SpaceRec) : String :=
  ("\n" ++ toString i ++ ". " ++ pyOpt s.name ++ " (Key: " ++ pyOpt s.key ++ ")\n")
  ++ (if s.description ≠ "" then "   Description: " ++ pyTake s.description 100 ++ "...\n" else "")
  ++ ("   Type: " ++ pyOpt s.type ++ "\n")

/-- `ConfluenceGenAIAgent._format_spaces`. -/
def formatSpaces (spaces : List SpaceRec) : String :=
  if spaces.isEmpty then "No spaces found."
  else fmtLoop spaceEntry "Available Confluence Spaces:\n" 1 spaces

/-! ### `src/genai_agent.py` — the query state machine -/

/-- The structured decision parsed from the first language-model call
(`json.loads` of the response). -/
structure IntentAnalysis where
  action : Option String
  space_key : Option (Option String)
  search_query : Option String
  max_results : Option Nat
  deriving DecidableEq

/-- Observable trace of one `query` run: how often each collaborator was
invoked, which space key was passed to `get_pages_from_space`, the
`confluence_data` block handed to the synthesis call, and the exception
text the `except` clause caught (`none` on success). -/
structure QueryTrace where
  listPagesCalls : Nat
  pagesKey : Option String
  getSpacesCalls : Nat
  searchCalls : Nat
  synthCalls : Nat
  confluenceData : Option String
  caught : Option String
  deriving DecidableEq

/-- The fixed billing/quota guidance returned for quota-like errors
(verbatim from the source). -/
def quotaMsg : String :=
  "I encountered a quota/billing issue with the OpenAI API.\n\nThis usually means:\n1. Your free trial credits have been used up\n2. You need to add a payment method\n3. You\x27ve reached your spending limit\n4. You\x27re making requests too quickly (rate limit)\n\nTo fix this:\n• Go to https://platform.openai.com/account/billing and add a payment method\n• Check your usage at https://platform.openai.com/account/usage\n• Increase spending limits if needed\n• Wait a few minutes if it\x27s a rate limit issue\n\nSee FIX_OPENAI_QUOTA.md for detailed instructions."

/-- The fixed API-key guidance returned for authentication errors
(verbatim from the source). -/
def authMsg : String :=
  "I encountered an authentication error with the OpenAI API.\n\nPlease check:\n• Your OPENAI_API_KEY in the .env file is correct\n• The API key hasn\x27t been revoked\n• You\x27re using a valid API key from https://platform.openai.com/api-keys"

/-- The fixed model-name guidance returned for 404/model errors
(verbatim from the source). -/
def modelMsg : String :=
  "I encountered an error with the AI model.\n\nPlease check:\n• Your OPENAI_MODEL in .env is a valid model name (e.g., gpt-3.5-turbo)\n• You have access to the specified model\n• See FIX_MODEL_ERROR.md for model options"

/-- The `except` clause of `query`: substring-match the exception text in
a fixed order (quota patterns, then 401/unauthorized, then 404/model),
falling through to the generic message. -/
def errorMessage (error_msg : String) : String :=
  if containsStr "429" error_msg || containsStr "quota" (lowerStr error_msg)
      || containsStr "insufficient_quota" (lowerStr error_msg) then
    quotaMsg
  else if containsStr "401" error_msg
      || containsStr "unauthorized" (lowerStr error_msg) then
    authMsg
  else if containsStr "404" error_msg
      || containsStr "model" (lowerStr error_msg) then
    modelMsg
  else
    "I encountered an error while processing your query: " ++ error_msg

/-- Step 3 of `query`: the second (synthesis) language-model call on the
assembled `confluence_data`, with the counters accumulated by the
dispatch step. -/
def runSynth (syn : String → String → Except String String) (uq data : String)
    (lp : Nat) (pk : Option String) (gs sc : Nat) : String × QueryTrace :=
  match syn uq data with
  | .error e => (errorMessage e, ⟨lp, pk, gs, sc, 1, some data, some e⟩)
  | .ok answer => (answer, ⟨lp, pk, gs, sc, 1, some data, none⟩)

/-- The line block built in the `get_pages` branch when no space key is
available: `- {space['name']} (Key: {space['key']})` per space. -/
def spacesListLines : List SpaceRec → String
  | [] => ""
  | s :: rest =>
    "- " ++ pyOpt s.name ++ " (Key: " ++ pyOpt s.key ++ ")\n" ++ spacesListLines rest

/-- The `get_pages` branch when the resolved space key is falsy: emit the
"specify a space" data block after listing all spaces (default limit). -/
def noSpaceKey (r : Remote) (syn : String → String → Except String String)
    (uq : String) : String × QueryTrace :=
  match get_spaces r 100 with
  | .error e => (errorMessage e, ⟨0, none, 1, 0, 0, none, some e⟩)
  | .ok spaces =>
    runSynth syn uq
      ("Space key not specified. Available spaces:\n" ++ spacesListLines spaces)
      0 none 1 0

/-- `analysis.get("space_key", self.confluence.default_space)`:
Python `dict.get` falls back to the configured default space only when
the `space_key` key is *absent*; a key present with value null (or any
string, even empty) is returned as-is. -/
def resolveSpaceKey (analysis : IntentAnalysis) (cfg : ConnConfig) :
    Option String :=
  match analysis.space_key with
  | none => cfg.default_space
  | some v => v

/-- `ConfluenceGenAIAgent.query`.  `cls` is the classification
language-model call combined with `json.loads` (step 1); `syn` is the
synthesis call (step 3); `r` is the remote endpoint behind the connector.
Besides the returned answer the model records the observable trace. -/
def queryRun (cfg : ConnConfig) (r : Remote)
    (cls : String → Except String IntentAnalysis)
    (syn : String → String → Except String String)
    (user_query : String) : String × QueryTrace :=
  match cls user_query with
  | .error e => (errorMessage e, ⟨0, none, 0, 0, 0, none, some e⟩)
  | .ok analysis =>
    if analysis.action.getD "general" = "get_spaces" then
      match get_spaces r (analysis.max_results.getD 100) with
      | .error e => (errorMessage e, ⟨0, none, 1, 0, 0, none, some e⟩)
      | .ok spaces => runSynth syn user_query (formatSpaces spaces) 0 none 1 0
    else if analysis.action.getD "general" = "get_pages" then
      match resolveSpaceKey analysis cfg with
      | some sk =>
        if sk ≠ "" then
          match get_pages_from_space cfg r sk (analysis.max_results.getD 50) with
          | .error e => (errorMessage e, ⟨1, some sk, 0, 0, 0, none, some e⟩)
          | .ok pages =>
            runSynth syn user_query (formatPages pages sk) 1 (some sk) 0 0
        else noSpaceKey r syn user_query
      | none => noSpaceKey r syn user_query
    else if analysis.action.getD "general" = "search" then
      match search_content cfg r (analysis.search_query.getD user_query)
          (analysis.space_key.getD none) (analysis.max_results.getD 20) with
      | .error e => (errorMessage e, ⟨0, none, 0, 1, 0, none, some e⟩)
      | .ok results =>
        runSynth syn user_query (formatSearchResults results) 0 none 0 1
    else
      match search_content cfg r user_query none 20 with
      | .error e => (errorMessage e, ⟨0, none, 0, 1, 0, none, some e⟩)
      | .ok results =>
        runSynth syn user_query (formatSearchResults results) 0 none 0 1

/-! ### Helper lemmas about the formatters -/

theorem fmtLoop_eq (f : Nat → α → String) :
    ∀ (rs : List α) (acc : String) (i : Nat),
      fmtLoop f acc i rs = acc ++ entriesFrom f i rs := by
  intro rs
  induction rs with
  | nil => intro acc i; simp [fmtLoop, entriesFrom, strAppend_empty]
  | cons r rest ih =>
    intro acc i
    simp [fmtLoop, entriesFrom, ih, strAppend_assoc]

theorem entriesFrom_enum (f : Nat → α → String) :
    ∀ (rs : List α) (i : Nat),
      entriesFrom f i rs
        = concatAll ((List.enumFrom i rs).map fun p => f p.1 p.2) := by
  intro rs
  induction rs with
  | nil => intro i; rfl
  | cons r rest ih =>
    intro i
    simp only [entriesFrom, List.enumFrom, List.map, concatAll]
    rw [ih]

theorem enumFrom_len : ∀ (rs : List α) (i : Nat),
    (List.enumFrom i rs).length = rs.length := by
  intro rs
  induction rs with
  | nil => intro i; rfl
  | cons r rest ih => intro i; simp [List.enumFrom, ih]

theorem strIn_entriesFrom (f : Nat → α → String) {x : String} {r : α}
    {rs : List α} (hm : r ∈ rs) (he : ∀ i, strIn x (f i r)) :
    ∀ i, strIn x (entriesFrom f i rs) := by
  induction rs with
  | nil => cases hm
  | cons a rest ih =>
    intro i
    rcases List.mem_cons.mp hm with h | h
    · subst h
      exact strIn_append_right _ (he i)
    · exact strIn_append_left _ (ih h (i + 1))

/-! ### Helper lemmas about the query state machine -/

theorem queryRun_caught_eq (cfg : ConnConfig) (r : Remote)
    (cls : String → Except String IntentAnalysis)
    (syn : String → String → Except String String) (uq e : String) :
    (queryRun cfg r cls syn uq).2.caught = some e →
    (queryRun cfg r cls syn uq).1 = errorMessage e := by
  unfold queryRun noSpaceKey runSynth
  repeat' split
  all_goals intro h
  all_goals simp_all

theorem queryRun_data_none (cfg : ConnConfig) (r : Remote)
    (cls : String → Except String IntentAnalysis)
    (syn : String → String → Except String String) (uq : String) :
    (queryRun cfg r cls syn uq).2.confluenceData = none →
    (queryRun cfg r cls syn uq).2.synthCalls = 0 := by
  unfold queryRun noSpaceKey runSynth
  repeat' split
  all_goals intro h
  all_goals simp_all

theorem queryRun_shape (cfg : ConnConfig) (r : Remote)
    (cls : String → Except String IntentAnalysis)
    (syn : String → String → Except String String) (uq : String) :
    (∃ e, (queryRun cfg r cls syn uq).2.caught = some e
        ∧ (queryRun cfg r cls syn uq).1 = errorMessage e)
    ∨ ((queryRun cfg r cls syn uq).2.caught = none
        ∧ ∃ data, (queryRun cfg r cls syn uq).2.confluenceData = some data
        ∧ syn uq data = .ok (queryRun cfg r cls syn uq).1) := by
  unfold queryRun noSpaceKey runSynth
  repeat' split
  all_goals first
    | exact Or.inl ⟨_, rfl, rfl⟩
    | (rename_i hok; exact Or.inr ⟨rfl, _, rfl, hok⟩)

/-! ### Helper lemmas about tag stripping -/

theorem wf2_match : ∀ (l : List Char), wfAux l 2 = true →
    ∃ l', matchTagAux l = some l' ∧ wfAux l' 0 = true := by
  intro l
  induction l with
  | nil => intro h; simp [wfAux] at h
  | cons c rest ih =>
    intro h
    by_cases hgt : c = '>'
    · simp only [wfAux] at h
      simp [hgt] at h
      exact ⟨rest, by simp [matchTagAux, hgt], h⟩
    · by_cases hlt : c = '<'
      · simp [wfAux, hgt, hlt] at h
      · simp only [wfAux] at h
        simp [hgt, hlt] at h
        obtain ⟨l', hm, hw⟩ := ih h
        exact ⟨l', by simp [matchTagAux, hgt, hlt, hm], hw⟩

theorem wf1_match : ∀ (l : List Char), wfAux l 1 = true →
    ∃ l', matchTag l = some l' ∧ wfAux l' 0 = true := by
  intro l h
  cases l with
  | nil => simp [wfAux] at h
  | cons c rest =>
    by_cases hlt : c = '<'
    · simp [wfAux, hlt] at h
    · by_cases hgt : c = '>'
      · simp [wfAux, hgt] at h
      · simp only [wfAux] at h
        simp [hlt, hgt] at h
        obtain ⟨l', hm, hw⟩ := wf2_match rest h
        exact ⟨l', by simp [matchTag, hlt, hm], hw⟩

theorem stripFuel_no_lt : ∀ (fuel : Nat) (l : List Char),
    l.length ≤ fuel → wfAux l 0 = true →
    ∀ c ∈ stripTagsFuel fuel l, c ≠ '<' := by
  intro fuel
  induction fuel with
  | zero =>
    intro l hlen hwf c hc
    simp [stripTagsFuel] at hc
  | succ f ih =>
    intro l hlen hwf c hc
    cases l with
    | nil => simp [stripTagsFuel] at hc
    | cons a rest =>
      have hlen' : rest.length ≤ f := by
        simp only [List.length_cons] at hlen; omega
      by_cases hlt : a = '<'
      · subst hlt
        simp only [wfAux] at hwf
        simp at hwf
        obtain ⟨l', hm, hw0⟩ := wf1_match rest hwf
        have hl' : l'.length ≤ f := by
          have := matchTag_length hm; omega
        simp only [stripTagsFuel, if_pos, hm] at hc
        exact ih l' hl' hw0 c hc
      · simp only [stripTagsFuel] at hc
        rw [if_neg hlt] at hc
        simp only [List.mem_cons] at hc
        rcases hc with hc | hc
        · subst hc; exact hlt
        · simp only [wfAux] at hwf
          simp [hlt] at hwf
          exact ih rest hlen' hwf c hc

theorem hasTagAux_false : ∀ (l : List Char), (∀ c ∈ l, c ≠ '<') →
    hasTagAux l false = false := by
  intro l
  induction l with
  | nil => intro _; rfl
  | cons c rest ih =>
    intro h
    have hc : c ≠ '<' := h c (List.mem_cons_self c rest)
    have hrest : ∀ x ∈ rest, x ≠ '<' :=
      fun x hx => h x (List.mem_cons_of_mem _ hx)
    simp only [hasTagAux]
    rw [if_neg hc]
    by_cases hgt : c = '>'
    · rw [if_pos hgt]
      simpa using ih hrest
    · rw [if_neg hgt]
      exact ih hrest

/-! ### Claims about the formatters (C5, C6, C7) -/

/-- C6 counterexample: the pages formatter's "nothing found" sentence is
not independent of its other arguments — it embeds the space key, so two
calls on the empty list with different space keys disagree. -/
theorem c6_counterexample : formatPages [] "A" ≠ formatPages [] "B" := by
  decide

/-- C6 (amended): on an empty record collection each formatter returns its
fixed "nothing found" sentence without crashing and with no numbered
block; the search and spaces sentences are constants, while the pages
sentence embeds the space-key argument. -/
theorem c6_empty_formatters :
    formatSearchResults [] = "No results found."
    ∧ (∀ space_key : String,
        formatPages [] space_key = "No pages found in space: " ++ space_key)
    ∧ formatSpaces [] = "No spaces found." :=
  ⟨rfl, fun _ => rfl, rfl⟩

/-- C7: on a non-empty record list each formatter renders its fixed header
followed by exactly one entry per input record, numbered consecutively
from 1 and in input order. -/
theorem c7_numbered_entries :
    (∀ rs : List SearchRec, rs ≠ [] →
      formatSearchResults rs
        = "Search Results:\n"
          ++ concatAll ((List.enumFrom 1 rs).map fun p => searchEntry p.1 p.2)
      ∧ ((List.enumFrom 1 rs).map fun p => searchEntry p.1 p.2).length
          = rs.length)
    ∧ (∀ (ps : List PageRec) (sk : String), ps ≠ [] →
      formatPages ps sk
        = ("Pages from space \x27" ++ sk ++ "\x27:\n")
          ++ concatAll ((List.enumFrom 1 ps).map fun p => pageEntry p.1 p.2)
      ∧ ((List.enumFrom 1 ps).map fun p => pageEntry p.1 p.2).length
          = ps.length)
    ∧ (∀ ss : List SpaceRec, ss ≠ [] →
      formatSpaces ss
        = "Available Confluence Spaces:\n"
          ++ concatAll ((List.enumFrom 1 ss).map fun p => spaceEntry p.1 p.2)
      ∧ ((List.enumFrom 1 ss).map fun p => spaceEntry p.1 p.2).length
          = ss.length) := by
  refine ⟨?_, ?_, ?_⟩
  · intro rs hne
    cases rs with
    | nil => exact absurd rfl hne
    | cons a t =>
      refine ⟨?_, by simp [enumFrom_len]⟩
      show fmtLoop searchEntry "Search Results:\n" 1 (a :: t) = _
      rw [fmtLoop_eq, entriesFrom_enum]
  · intro ps sk hne
    cases ps with
    | nil => exact absurd rfl hne
    | cons a t =>
      refine ⟨?_, by simp [enumFrom_len]⟩
      show fmtLoop pageEntry ("Pages from space \x27" ++ sk ++ "\x27:\n") 1 (a :: t) = _
      rw [fmtLoop_eq, entriesFrom_enum]
  · intro ss hne
    cases ss with
    | nil => exact absurd rfl hne
    | cons a t =>
      refine ⟨?_, by simp [enumFrom_len]⟩
      show fmtLoop spaceEntry "Available Confluence Spaces:\n" 1 (a :: t) = _
      rw [fmtLoop_eq, entriesFrom_enum]

/-- C7 witness: concrete one-record instances of the three formatters. -/
theorem c7_witness :
    formatSearchResults [⟨some "1", some "T", "page", "E", "Eng", "", "", 1⟩]
      = "Search Results:\n"
        ++ concatAll ((List.enumFrom 1
            [(⟨some "1", some "T", "page", "E", "Eng", "", "", 1⟩ : SearchRec)]).map
            fun p => searchEntry p.1 p.2)
    ∧ formatPages [⟨some "1", some "T", "E", 1, "", ""⟩] "E"
      = ("Pages from space \x27" ++ "E" ++ "\x27:\n")
        ++ concatAll ((List.enumFrom 1
            [(⟨some "1", some "T", "E", 1, "", ""⟩ : PageRec)]).map
            fun p => pageEntry p.1 p.2)
    ∧ formatSpaces [⟨some "E", some "Eng", some "global", "", ""⟩]
      = "Available Confluence Spaces:\n"
        ++ concatAll ((List.enumFrom 1
            [(⟨some "E", some "Eng", some "global", "", ""⟩ : SpaceRec)]).map
            fun p => spaceEntry p.1 p.2) :=
  ⟨(c7_numbered_entries.1 _ (by decide)).1,
   (c7_numbered_entries.2.1 _ "E" (by decide)).1,
   (c7_numbered_entries.2.2 _ (by decide)).1⟩

/-- C5 counterexample: the pages formatter appends the ellipsis marker to
a 2-character preview that was not truncated (the fixed length is 150). -/
theorem c5_counterexample :
    formatPages [⟨some "1", some "T", "K", 1, "hi", ""⟩] "K"
      = "Pages from space \x27K\x27:\n\n1. T\n   ID: 1\n   Preview: hi...\n" := by
  decide

/-- C5 (amended): each formatter truncates its embedded preview to a fixed
length — 200 characters for search results, 150 for pages, 100 for space
descriptions — and appends the ellipsis marker whenever the preview field
is non-empty, whether or not truncation occurred. -/
theorem c5_preview_truncation :
    (∀ (rs : List SearchRec) (r : SearchRec), r ∈ rs → r.content ≠ "" →
      strIn ("   Content: " ++ pyTake r.content 200 ++ "...\n")
        (formatSearchResults rs))
    ∧ (∀ (ps : List PageRec) (p : PageRec) (sk : String), p ∈ ps →
      p.content ≠ "" →
      strIn ("   Preview: " ++ pyTake p.content 150 ++ "...\n")
        (formatPages ps sk))
    ∧ (∀ (ss : List SpaceRec) (s : SpaceRec), s ∈ ss → s.description ≠ "" →
      strIn ("   Description: " ++ pyTake s.description 100 ++ "...\n")
        (formatSpaces ss)) := by
  refine ⟨?_, ?_, ?_⟩
  · intro rs r hm hc
    have he : ∀ i, strIn ("   Content: " ++ pyTake r.content 200 ++ "...\n")
        (searchEntry i r) := by
      intro i
      unfold searchEntry
      rw [if_pos hc]
      exact strIn_append_right _ (strIn_append_left _ (strIn_self _))
    have h2 := strIn_entriesFrom searchEntry hm he 1
    cases rs with
    | nil => cases hm
    | cons a t =>
      show strIn _ (fmtLoop searchEntry "Search Results:\n" 1 (a :: t))
      rw [fmtLoop_eq]
      exact strIn_append_left _ h2
  · intro ps p sk hm hc
    have he : ∀ i, strIn ("   Preview: " ++ pyTake p.content 150 ++ "...\n")
        (pageEntry i p) := by
      intro i
      unfold pageEntry
      rw [if_pos hc]
      exact strIn_append_right _ (strIn_append_left _ (strIn_self _))
    have h2 := strIn_entriesFrom pageEntry hm he 1
    cases ps with
    | nil => cases hm
    | cons a t =>
      show strIn _ (fmtLoop pageEntry ("Pages from space \x27" ++ sk ++ "\x27:\n") 1 (a :: t))
      rw [fmtLoop_eq]
      exact strIn_append_left _ h2
  · intro ss s hm hc
    have he : ∀ i, strIn ("   Description: " ++ pyTake s.description 100 ++ "...\n")
        (spaceEntry i s) := by
      intro i
      unfold spaceEntry
      rw [if_pos hc]
      exact strIn_append_right _ (strIn_append_left _ (strIn_self _))
    have h2 := strIn_entriesFrom spaceEntry hm he 1
    cases ss with
    | nil => cases hm
    | cons a t =>
      show strIn _ (fmtLoop spaceEntry "Available Confluence Spaces:\n" 1 (a :: t))
      rw [fmtLoop_eq]
      exact strIn_append_left _ h2

/-- C5 witness: a short un-truncated preview still gets its marker, in all
three formatters. -/
theorem c5_witness :
    strIn ("   Content: " ++ pyTake "hi" 200 ++ "...\n")
      (formatSearchResults [⟨some "1", some "T", "page", "E", "Eng", "hi", "", 1⟩])
    ∧ strIn ("   Preview: " ++ pyTake "hi" 150 ++ "...\n")
      (formatPages [⟨some "1", some "T", "K", 1, "hi", ""⟩] "K")
    ∧ strIn ("   Description: " ++ pyTake "hi" 100 ++ "...\n")
      (formatSpaces [⟨some "E", some "Eng", some "global", "hi", ""⟩]) :=
  ⟨c5_preview_truncation.1 [⟨some "1", some "T", "page", "E", "Eng", "hi", "", 1⟩]
     ⟨some "1", some "T", "page", "E", "Eng", "hi", "", 1⟩ (by simp) (by decide),
   c5_preview_truncation.2.1 [⟨some "1", some "T", "K", 1, "hi", ""⟩]
     ⟨some "1", some "T", "K", 1, "hi", ""⟩ "K" (by simp) (by decide),
   c5_preview_truncation.2.2 [⟨some "E", some "Eng", some "global", "hi", ""⟩]
     ⟨some "E", some "Eng", some "global", "hi", ""⟩ (by simp) (by decide)⟩

/-! ### Claim about URL construction (C8) -/

/-- C8: page-URL construction is invariant under a trailing slash in the
configured base URL, and equals the base with trailing slashes stripped
concatenated with the relative web link. -/
theorem c8_url_trailing_slash (base link : String)
    (h : startsWithList ['/'] link.data = true) :
    buildPageUrl (base ++ "/") link = buildPageUrl base link
    ∧ buildPageUrl base link = rstrip_slash base ++ link := by
  refine ⟨?_, rfl⟩
  unfold buildPageUrl
  have : rstrip_slash (base ++ "/") = rstrip_slash base := by
    apply strExt
    show ((base ++ "/").data.reverse.dropWhile (fun c => c = '/')).reverse
        = (base.data.reverse.dropWhile (fun c => c = '/')).reverse
    rw [strData_append]
    show ((base.data ++ ['/']).reverse.dropWhile (fun c => c = '/')).reverse = _
    rw [List.reverse_append]
    simp [List.dropWhile]
  rw [this]

/-- C8 witness: the spec's concrete example, with and without the trailing
slash. -/
theorem c8_witness :
    startsWithList ['/'] "/spaces/KEY/pages/1".data = true
    ∧ buildPageUrl "https://x.atlassian.net/wiki/" "/spaces/KEY/pages/1"
        = buildPageUrl "https://x.atlassian.net/wiki" "/spaces/KEY/pages/1"
    ∧ buildPageUrl "https://x.atlassian.net/wiki" "/spaces/KEY/pages/1"
        = "https://x.atlassian.net/wiki/spaces/KEY/pages/1" :=
  ⟨by decide,
   (c8_url_trailing_slash "https://x.atlassian.net/wiki" "/spaces/KEY/pages/1"
     (by decide)).1,
   by decide⟩

/-! ### Claim about the search snippet (C4) -/

/-- C4 counterexample: the body `<a<x>b>` contains the markup tag `<x>`,
yet the snippet computed by `search_content` is `<ab>` — the single
left-to-right `re.sub` pass itself creates a fresh `<...>` tag sequence. -/
theorem c4_counterexample :
    hasTagB "<a<x>b>" = true
    ∧ stripSnippet "<a<x>b>" = "<ab>"
    ∧ hasTagB (stripSnippet "<a<x>b>") = true :=
  ⟨by decide, by decide, by decide⟩

/-- C4 (amended): the snippet is the tag-stripped body truncated to at
most 300 characters (stripping happens before truncation); for every body
in which each `<` opens a well-formed tag (one or more characters other
than `<`/`>`, closed by `>`) the snippet contains no `<...>` sequence, but
for other bodies the removal pass may itself produce such a sequence. -/
theorem c4_snippet (content : String) :
    (stripSnippet content).length ≤ 300
    ∧ (wfMarkup content = true → hasTagB (stripSnippet content) = false) := by
  constructor
  · show ((stripTags content.data).take 300).length ≤ 300
    simp [List.length_take]
  · intro hwf
    have hno : ∀ c ∈ stripTags content.data, c ≠ '<' :=
      stripFuel_no_lt _ _ (Nat.le_succ _) hwf
    have hno' : ∀ c ∈ (stripTags content.data).take 300, c ≠ '<' :=
      fun c hc => hno c (List.take_subset _ _ hc)
    exact hasTagAux_false _ hno'

/-- C4 witness: a well-formed body, stripped and truncated with no
remaining tag sequence. -/
theorem c4_witness :
    wfMarkup "<p>Hello</p> world" = true
    ∧ (stripSnippet "<p>Hello</p> world").length ≤ 300
    ∧ hasTagB (stripSnippet "<p>Hello</p> world") = false :=
  ⟨by decide, (c4_snippet "<p>Hello</p> world").1,
   (c4_snippet "<p>Hello</p> world").2 (by decide)⟩

/-! ### Claim about adapter failure behaviour (C3) -/

/-- C3: `get_page_content` and `get_page_by_title` swallow both not-found
and remote failure into `none`, while `get_spaces`,
`get_pages_from_space` and `search_content` propagate the failure to the
caller after logging it. -/
theorem c3_error_asymmetry :
    (∀ (r : Remote) (pid e : String),
      r.get_page_by_id pid = .error e → get_page_content r pid = none)
    ∧ (∀ (r : Remote) (pid : String),
      r.get_page_by_id pid = .ok none → get_page_content r pid = none)
    ∧ (∀ (cfg : ConnConfig) (r : Remote) (sk title e : String),
      r.get_page_by_title sk title = .error e →
      get_page_by_title cfg r sk title = none)
    ∧ (∀ (cfg : ConnConfig) (r : Remote) (sk title : String),
      r.get_page_by_title sk title = .ok none →
      get_page_by_title cfg r sk title = none)
    ∧ (∀ (r : Remote) (limit : Nat) (e : String),
      r.get_all_spaces limit = .error e → get_spaces r limit = .error e)
    ∧ (∀ (cfg : ConnConfig) (r : Remote) (sk : String) (limit : Nat) (e : String),
      r.get_all_pages_from_space sk limit = .error e →
      get_pages_from_space cfg r sk limit = .error e)
    ∧ (∀ (cfg : ConnConfig) (r : Remote) (q : String) (sk : Option String)
        (mr : Nat) (e : String),
      r.cql (buildCql q sk) mr = .error e →
      search_content cfg r q sk mr = .error e) := by
  refine ⟨?_, ?_, ?_, ?_, ?_, ?_, ?_⟩ <;> intros <;>
    simp_all [get_page_content, get_page_by_title, get_spaces,
      get_pages_from_space, search_content]

/-- A remote endpoint on which every call raises. -/
def remoteFail : Remote :=
  ⟨fun _ => .error "boom", fun _ _ => .error "boom", fun _ _ => .error "boom",
   fun _ => .error "boom", fun _ _ => .error "boom"⟩

/-- A remote endpoint that finds nothing. -/
def remoteMissing : Remote :=
  ⟨fun _ => .ok [], fun _ _ => .ok [], fun _ _ => .ok [],
   fun _ => .ok none, fun _ _ => .ok none⟩

/-- C3 witness: the seven behaviours at concrete failing/missing
endpoints. -/
theorem c3_witness :
    get_page_content remoteFail "1" = none
    ∧ get_page_content remoteMissing "1" = none
    ∧ get_page_by_title ⟨"u", none⟩ remoteFail "S" "T" = none
    ∧ get_page_by_title ⟨"u", none⟩ remoteMissing "S" "T" = none
    ∧ get_spaces remoteFail 10 = .error "boom"
    ∧ get_pages_from_space ⟨"u", none⟩ remoteFail "S" 10 = .error "boom"
    ∧ search_content ⟨"u", none⟩ remoteFail "q" none 10 = .error "boom" :=
  ⟨c3_error_asymmetry.1 remoteFail "1" "boom" rfl,
   c3_error_asymmetry.2.1 remoteMissing "1" rfl,
   c3_error_asymmetry.2.2.1 ⟨"u", none⟩ remoteFail "S" "T" "boom" rfl,
   c3_error_asymmetry.2.2.2.1 ⟨"u", none⟩ remoteMissing "S" "T" rfl,
   c3_error_asymmetry.2.2.2.2.1 remoteFail 10 "boom" rfl,
   c3_error_asymmetry.2.2.2.2.2.1 ⟨"u", none⟩ remoteFail "S" 10 "boom" rfl,
   c3_error_asymmetry.2.2.2.2.2.2 ⟨"u", none⟩ remoteFail "q" none 10 "boom" rfl⟩

/-! ### Claims about the query state machine (C1, C2, C9, C10) -/

/-- Configuration with a default space configured. -/
def c1Cfg : ConnConfig := ⟨"https://x.atlassian.net/wiki", some "ENG"⟩

/-- Remote with exactly one space. -/
def c1Remote : Remote :=
  ⟨fun _ => .ok [⟨some "ENG", some "Engineering", some "global", some "", some "/spaces/ENG"⟩],
   fun _ _ => .ok [], fun _ _ => .ok [], fun _ => .ok none, fun _ _ => .ok none⟩

/-- Classifier returning `{action: "get_pages", space_key: null}` — the
key is present with a JSON null value. -/
def c1Cls : String → Except String IntentAnalysis :=
  fun _ => .ok ⟨some "get_pages", some none, none, none⟩

/-- Synthesis call that succeeds. -/
def synOk : String → String → Except String String := fun _ _ => .ok "done"

/-- C1 counterexample: a `get_pages` decision whose `space_key` field is
an explicit JSON null, with a default space configured (`"ENG"`).  The
claim's resolution rule ("from the decision's space_key field, else from
the configured default space") would resolve the key to `"ENG"` and call
list_pages; the code instead performs zero list_pages calls and emits the
"specify a space" data block, because `dict.get` only falls back on an
absent key. -/
theorem c1_counterexample :
    c1Cfg.default_space = some "ENG"
    ∧ c1Cls "show pages" = .ok ⟨some "get_pages", some none, none, none⟩
    ∧ (queryRun c1Cfg c1Remote c1Cls synOk "show pages").2.listPagesCalls = 0
    ∧ (queryRun c1Cfg c1Remote c1Cls synOk "show pages").2.confluenceData
        = some "Space key not specified. Available spaces:\n- Engineering (Key: ENG)\n" :=
  ⟨rfl, rfl, by decide, by decide⟩

/-- C1 (amended): for a `get_pages` decision the space key is the
decision's `space_key` value when that key is present (even if null or
empty), and the configured default space only when the key is absent;
when the resolved key is a non-empty string, `query` performs exactly one
list_pages call with that key; when the resolved key is missing or empty,
it performs zero list_pages calls and produces the "specify a space" data
block listing all spaces. -/
theorem c1_get_pages_dispatch :
    (∀ (cfg : ConnConfig) (r : Remote)
       (cls : String → Except String IntentAnalysis)
       (syn : String → String → Except String String)
       (uq : String) (a : IntentAnalysis) (sk : String),
      cls uq = .ok a → a.action.getD "general" = "get_pages" →
      resolveSpaceKey a cfg = some sk → sk ≠ "" →
      (queryRun cfg r cls syn uq).2.pagesKey = some sk
      ∧ (queryRun cfg r cls syn uq).2.listPagesCalls = 1)
    ∧ (∀ (cfg : ConnConfig) (r : Remote)
       (cls : String → Except String IntentAnalysis)
       (syn : String → String → Except String String)
       (uq : String) (a : IntentAnalysis),
      cls uq = .ok a → a.action.getD "general" = "get_pages" →
      (resolveSpaceKey a cfg = none ∨ resolveSpaceKey a cfg = some "") →
      (queryRun cfg r cls syn uq).2.listPagesCalls = 0
      ∧ ∀ spaces, get_spaces r 100 = .ok spaces →
        (queryRun cfg r cls syn uq).2.confluenceData
          = some ("Space key not specified. Available spaces:\n"
              ++ spacesListLines spaces)) := by
  constructor
  · intro cfg r cls syn uq a sk hcls hact hres hne
    unfold queryRun noSpaceKey runSynth
    rw [hcls]
    repeat' split
    all_goals simp_all
  · intro cfg r cls syn uq a hcls hact hres
    rcases hres with hres | hres
    all_goals (
      unfold queryRun noSpaceKey runSynth
      rw [hcls]
      refine ⟨?_, ?_⟩)
    · repeat' split
      all_goals simp_all
    · intro spaces hsp
      repeat' split
      all_goals simp_all
    · repeat' split
      all_goals simp_all
    · intro spaces hsp
      repeat' split
      all_goals simp_all

/-- Remote whose page listing succeeds. -/
def c1WitRemote : Remote :=
  ⟨fun _ => .ok [], fun _ _ => .ok [⟨some "1", some "T", some 1, some "", some "/p/1"⟩],
   fun _ _ => .ok [], fun _ => .ok none, fun _ _ => .ok none⟩

/-- Classifier returning `{action: "get_pages", space_key: "ENG"}`. -/
def c1WitCls : String → Except String IntentAnalysis :=
  fun _ => .ok ⟨some "get_pages", some (some "ENG"), none, none⟩

/-- C1 witness: both amended branches at concrete inputs — a present
non-empty key triggers exactly one list_pages call with that key; a
null key with a configured default triggers the specify-a-space block. -/
theorem c1_witness :
    ((queryRun c1Cfg c1WitRemote c1WitCls synOk "q").2.pagesKey = some "ENG"
      ∧ (queryRun c1Cfg c1WitRemote c1WitCls synOk "q").2.listPagesCalls = 1)
    ∧ ((queryRun c1Cfg c1Remote c1Cls synOk "show pages").2.listPagesCalls = 0
      ∧ (queryRun c1Cfg c1Remote c1Cls synOk "show pages").2.confluenceData
          = some ("Space key not specified. Available spaces:\n"
              ++ spacesListLines [⟨some "ENG", some "Engineering", some "global", "", "/spaces/ENG"⟩])) :=
  ⟨c1_get_pages_dispatch.1 c1Cfg c1WitRemote c1WitCls synOk "q"
     ⟨some "get_pages", some (some "ENG"), none, none⟩ "ENG" rfl rfl rfl (by decide),
   ⟨(c1_get_pages_dispatch.2 c1Cfg c1Remote c1Cls synOk "show pages"
       ⟨some "get_pages", some none, none, none⟩ rfl rfl (Or.inl rfl)).1,
    (c1_get_pages_dispatch.2 c1Cfg c1Remote c1Cls synOk "show pages"
       ⟨some "get_pages", some none, none, none⟩ rfl rfl (Or.inl rfl)).2
      [⟨some "ENG", some "Engineering", some "global", "", "/spaces/ENG"⟩] rfl⟩⟩

/-- Configuration with no default space. -/
def c2Cfg : ConnConfig := ⟨"https://x.atlassian.net/wiki", none⟩

/-- Classifier returning `{action: "get_spaces"}`. -/
def c2Cls : String → Except String IntentAnalysis :=
  fun _ => .ok ⟨some "get_spaces", none, none, none⟩

/-- Synthesis call that raises a quota error. -/
def c2Syn : String → String → Except String String :=
  fun _ _ => .error "insufficient_quota"

/-- C2 counterexample: when the *synthesis* language-model call itself
raises an error containing `insufficient_quota`, `query` does return the
billing message, but the synthesis call has been invoked (once), refuting
"does not invoke the second (synthesis) language-model call" for that
exception. -/
theorem c2_counterexample :
    (queryRun c2Cfg remoteMissing c2Cls c2Syn "hello").1 = quotaMsg
    ∧ (queryRun c2Cfg remoteMissing c2Cls c2Syn "hello").2.caught
        = some "insufficient_quota"
    ∧ (queryRun c2Cfg remoteMissing c2Cls c2Syn "hello").2.synthCalls = 1 :=
  ⟨by decide, by decide, by decide⟩

/-- C2 (amended): every caught exception whose text contains
`insufficient_quota` makes `query` return the fixed billing-guidance
message verbatim; and whenever the exception arises before the synthesis
step (classifier, intent parsing, or content-source call — i.e. before
any `confluence_data` was assembled), the synthesis call is never
invoked. -/
theorem c2_quota_mapping :
    (∀ (cfg : ConnConfig) (r : Remote)
       (cls : String → Except String IntentAnalysis)
       (syn : String → String → Except String String) (uq e : String),
      (queryRun cfg r cls syn uq).2.caught = some e →
      containsStr "insufficient_quota" (lowerStr e) = true →
      (queryRun cfg r cls syn uq).1 = quotaMsg)
    ∧ (∀ (cfg : ConnConfig) (r : Remote)
       (cls : String → Except String IntentAnalysis)
       (syn : String → String → Except String String) (uq : String),
      (queryRun cfg r cls syn uq).2.confluenceData = none →
      (queryRun cfg r cls syn uq).2.synthCalls = 0) := by
  constructor
  · intro cfg r cls syn uq e hc hq
    rw [queryRun_caught_eq cfg r cls syn uq e hc]
    simp [errorMessage, hq]
  · exact queryRun_data_none

/-- Classifier call that itself raises a quota error. -/
def c2WitCls : String → Except String IntentAnalysis :=
  fun _ => .error "Error code: 429 - insufficient_quota"

/-- C2 witness: a quota error raised by the first language-model call is
mapped to the billing message with the synthesis call never invoked. -/
theorem c2_witness :
    (queryRun c2Cfg remoteMissing c2WitCls synOk "hello").1 = quotaMsg
    ∧ (queryRun c2Cfg remoteMissing c2WitCls synOk "hello").2.synthCalls = 0 :=
  ⟨c2_quota_mapping.1 c2Cfg remoteMissing c2WitCls synOk "hello"
     "Error code: 429 - insufficient_quota" rfl (by decide),
   c2_quota_mapping.2 c2Cfg remoteMissing c2WitCls synOk "hello" rfl⟩

/-- C9: `query` is total at its public interface — for every behaviour of
the classifier, the content source and the synthesis call, it returns a
string: either the error mapping of the one caught exception, or the
successful synthesis output for the assembled data block; no exception
propagates. -/
theorem c9_query_total (cfg : ConnConfig) (r : Remote)
    (cls : String → Except String IntentAnalysis)
    (syn : String → String → Except String String) (uq : String) :
    (∃ e, (queryRun cfg r cls syn uq).2.caught = some e
        ∧ (queryRun cfg r cls syn uq).1 = errorMessage e)
    ∨ ((queryRun cfg r cls syn uq).2.caught = none
        ∧ ∃ data, (queryRun cfg r cls syn uq).2.confluenceData = some data
        ∧ syn uq data = .ok (queryRun cfg r cls syn uq).1) :=
  queryRun_shape cfg r cls syn uq

/-- Remote whose page listing raises a 404 error. -/
def c10Remote : Remote :=
  ⟨fun _ => .ok [], fun _ _ => .error "404 Client Error: Not Found",
   fun _ _ => .ok [], fun _ => .ok none, fun _ _ => .ok none⟩

/-- C10: the error mapping is applied, in its fixed substring order, to
every caught exception regardless of origin: any text containing `429`
maps to the quota message even if later patterns also match; `401`
matches only after the quota patterns fail; and a *content-source*
failure whose text contains `404` is answered with the OpenAI model-name
guidance rather than a generic retrieval error. -/
theorem c10_error_mapping_origin_blind :
    (∀ (cfg : ConnConfig) (r : Remote)
       (cls : String → Except String IntentAnalysis)
       (syn : String → String → Except String String) (uq e : String),
      (queryRun cfg r cls syn uq).2.caught = some e →
      (queryRun cfg r cls syn uq).1 = errorMessage e)
    ∧ (∀ e : String, containsStr "429" e = true → errorMessage e = quotaMsg)
    ∧ (∀ e : String, containsStr "429" e = false →
        containsStr "quota" (lowerStr e) = false →
        containsStr "insufficient_quota" (lowerStr e) = false →
        containsStr "401" e = true → errorMessage e = authMsg)
    ∧ (queryRun c1Cfg c10Remote c1WitCls synOk "q").1 = modelMsg
    ∧ (queryRun c1Cfg c10Remote c1WitCls synOk "q").2.caught
        = some "404 Client Error: Not Found"
    ∧ (queryRun c1Cfg c10Remote c1WitCls synOk "q").2.listPagesCalls = 1 := by
  refine ⟨queryRun_caught_eq, ?_, ?_, by decide, by decide, by decide⟩
  · intro e h
    simp [errorMessage, h]
  · intro e h1 h2 h3 h4
    simp [errorMessage, h1, h2, h3, h4]

/-- C10 witness: the universally quantified mapping facts at concrete
inputs. -/
theorem c10_witness :
    (queryRun c2Cfg remoteFail c2Cls synOk "q").1
      = errorMessage "boom"
    ∧ errorMessage "HTTP 429 and also 404" = quotaMsg
    ∧ errorMessage "401 Unauthorized and 404" = authMsg :=
  ⟨c10_error_mapping_origin_blind.1 c2Cfg remoteFail c2Cls synOk "q" "boom" rfl,
   c10_error_mapping_origin_blind.2.1 "HTTP 429 and also 404" (by decide),
   c10_error_mapping_origin_blind.2.2.1 "401 Unauthorized and 404"
     (by decide) (by decide) (by decide) (by decide)⟩
